import Mathlib

/-!
Verification of the account/authentication layer of the CRMS repository
(`src/accounts/forms.py`, `src/accounts/models.py`, `src/accounts/views.py`,
`src/core/decorators.py`) against its natural-language specification.

The Python code is shallowly embedded: each Django form `clean_*` method
becomes a Lean function returning `Except String String` (the `error`
constructor carries the `ValidationError` message verbatim); each view
becomes a pure function from an explicit database/session/request value to
the new state and the response.  Python string truthiness (`if phone:`) is
modelled as a non-emptiness test, `str.isdigit` as all-characters-are-ASCII-
digits on a non-empty string, and Django model timestamps as natural
numbers supplied by the caller.  String operations are modelled on the
character list of the string: removing every occurrence of a single
character (`str.replace` with the empty replacement) is filtering that character out, and
`str.startswith(p)` is the characters-of-`p`-are-a-leading-segment test.
-/

namespace CRMS

/-- Strip spaces and hyphens, as the two chained `phone.replace` calls
    do in both phone-cleaning methods of `src/accounts/forms.py`:
    replacing every occurrence of a single character by the empty string is
    filtering that character out of the character sequence. -/
def stripPhone (phone : String) : String :=
  String.mk (phone.toList.filter (fun c => c != ' ' && c != '-'))

/-- Python `str.startswith`, on character lists. -/
def pyStartsWith (s p : String) : Bool :=
  p.toList.isPrefixOf s.toList

/-- The prefix test of `clean_phone_number` in `src/accounts/forms.py`
    (lines 129 and 252): the stripped phone must start with one of
    "+254", "254", "07", "01". -/
def kenyanFormatOk (p : String) : Bool :=
  pyStartsWith p "+254" || pyStartsWith p "254" || pyStartsWith p "07" || pyStartsWith p "01"

/-- The digit-count expression (join the digit characters, take the
    length) of `src/accounts/forms.py`
    line 133: the number of (ASCII) digit characters in the string. -/
def digitCount (p : String) : Nat :=
  (p.toList.filter Char.isDigit).length

/-- Python `str.isdigit` restricted to ASCII: true iff the string is
    non-empty and every character is a decimal digit. -/
def pyIsDigit (s : String) : Bool :=
  s != "" && s.toList.all Char.isDigit

/-- `Except.isOk` spelled out, to state form acceptance as a Bool. -/
def exceptOk {ε α : Type} : Except ε α → Bool
  | .ok _ => true
  | .error _ => false

namespace CustomUserCreationForm

/-- `CustomUserCreationForm.clean_national_id` (`src/accounts/forms.py`
    lines 102-117).  `dbHasNid` embeds the database lookup
    `User.objects.filter(national_id=national_id).exists()`.  The Python
    guards `if national_id and ...` use string truthiness, hence the
    non-emptiness conjuncts. -/
def clean_national_id (dbHasNid : String → Bool) (national_id : String) :
    Except String String :=
  if national_id != "" && dbHasNid national_id then
    .error "A user with this National ID already exists."
  else if national_id != "" && !(pyIsDigit national_id) then
    .error "National ID must contain only digits."
  else if national_id != "" && (national_id.length < 7 || national_id.length > 8) then
    .error "National ID must be 7 or 8 digits long."
  else
    .ok national_id

/-- `CustomUserCreationForm.clean_phone_number` (`src/accounts/forms.py`
    lines 119-137): strip spaces/hyphens, require a Kenyan prefix, then
    require 9 to 12 digit characters in total. -/
def clean_phone_number (phone : String) : Except String String :=
  if phone != "" then
    let p := stripPhone phone
    if !(kenyanFormatOk p) then
      .error "Phone number must be in Kenyan format (e.g., +254712345678, 0712345678)"
    else if digitCount p < 9 || digitCount p > 12 then
      .error "Phone number must have between 9 and 12 digits"
    else
      .ok p
  else
    .ok phone

end CustomUserCreationForm

namespace UserProfileForm

/-- `UserProfileForm.clean_phone_number` (`src/accounts/forms.py` lines
    243-255).  Unlike the registration form, it checks only the prefix:
    there is no digit-count check in the source. -/
def clean_phone_number (phone : String) : Except String String :=
  if phone != "" then
    let p := stripPhone phone
    if !(kenyanFormatOk p) then
      .error "Phone number must be in Kenyan format"
    else
      .ok p
  else
    .ok phone

end UserProfileForm

/-- Whether registration accepts a national id.  Both `national_id` fields
    are required `CharField`s, so Django rejects the empty submission
    before the custom clean method runs; a non-empty value is accepted iff
    `clean_national_id` returns it. -/
def registration_accepts_national_id (dbHasNid : String → Bool) (s : String) : Bool :=
  s != "" && exceptOk (CustomUserCreationForm.clean_national_id dbHasNid s)

/-- Whether registration accepts a phone number (required field, then
    `CustomUserCreationForm.clean_phone_number`). -/
def registration_accepts_phone (s : String) : Bool :=
  s != "" && exceptOk (CustomUserCreationForm.clean_phone_number s)

/-- Whether a profile update accepts a phone number (required field, then
    `UserProfileForm.clean_phone_number`). -/
def profile_accepts_phone (s : String) : Bool :=
  s != "" && exceptOk (UserProfileForm.clean_phone_number s)

/-- The acceptance rule as the specification words it for national ids:
    solely decimal digits, length exactly 7 or 8. -/
def specNationalIdOk (s : String) : Bool :=
  s.toList.all Char.isDigit && (s.length == 7 || s.length == 8)

/-- The acceptance rule as the specification words it for phone numbers:
    after stripping spaces and hyphens, starts with one of the four Kenyan
    prefixes and has between 9 and 12 digits in total. -/
def specPhoneOk (s : String) : Bool :=
  let p := stripPhone s
  kenyanFormatOk p && (decide (9 ≤ digitCount p) && decide (digitCount p ≤ 12))

/-- C5: registration accepts a national id iff it is all decimal digits of
    length exactly 7 or 8 (given that the id is not already taken, which is
    the separate uniqueness check that runs first). -/
theorem registration_national_id_iff_digits_7_or_8
    (dbHasNid : String → Bool) (s : String) (hfresh : dbHasNid s = false) :
    registration_accepts_national_id dbHasNid s = specNationalIdOk s := by
  by_cases h : s = ""
  · subst h; rfl
  · have hb : (s != "") = true := by simp [bne_iff_ne, h]
    unfold registration_accepts_national_id specNationalIdOk
    unfold CustomUserCreationForm.clean_national_id pyIsDigit
    rw [hb, hfresh]
    rw [Bool.eq_iff_iff]
    cases hd : s.toList.all Char.isDigit
    · simp [exceptOk, hd]
    · by_cases h7 : s.length < 7
      · have hl : (s.length < 7 || s.length > 8) = true := by simp [h7]
        have h78 : (s.length == 7 || s.length == 8) = false := by
          have e7 : (s.length == 7) = false := by simp; omega
          have e8 : (s.length == 8) = false := by simp; omega
          rw [e7, e8]; rfl
        simp [hl, h78, exceptOk]
      · by_cases h8 : s.length > 8
        · have hl : (s.length < 7 || s.length > 8) = true := by simp [h8]
          have h78 : (s.length == 7 || s.length == 8) = false := by
            have e7 : (s.length == 7) = false := by simp; omega
            have e8 : (s.length == 8) = false := by simp; omega
            rw [e7, e8]; rfl
          simp [hl, h78, exceptOk]
        · have hl : (s.length < 7 || s.length > 8) = false := by
            have e7 : decide (s.length < 7) = false := by simp; omega
            have e8 : decide (s.length > 8) = false := by simp; omega
            rw [show (s.length < 7 || s.length > 8) =
                (decide (s.length < 7) || decide (s.length > 8)) from rfl, e7, e8]
            rfl
          have h78 : (s.length == 7 || s.length == 8) = true := by
            rcases Nat.lt_or_ge s.length 8 with hlt | hge
            · have : s.length = 7 := by omega
              simp [this]
            · have : s.length = 8 := by omega
              simp [this]
          simp [hl, h78, exceptOk]

/-- C5 witness: the fresh id "1234567" is accepted. -/
theorem registration_national_id_iff_digits_7_or_8_witness :
    registration_accepts_national_id (fun _ => false) "1234567" = true :=
  (registration_national_id_iff_digits_7_or_8 (fun _ => false) "1234567" rfl).trans
    (by rfl)

/-- C6: registration accepts a phone number iff, after removing spaces and
    hyphens, it starts with "+254", "254", "07" or "01" and contains
    between 9 and 12 digit characters in total. -/
theorem registration_phone_iff_prefix_and_digits (s : String) :
    registration_accepts_phone s = specPhoneOk s := by
  by_cases h : s = ""
  · subst h; rfl
  · have hb : (s != "") = true := by simp [bne_iff_ne, h]
    unfold registration_accepts_phone specPhoneOk
    unfold CustomUserCreationForm.clean_phone_number
    rw [hb]
    rw [Bool.eq_iff_iff]
    simp only [if_true]
    cases hk : kenyanFormatOk (stripPhone s)
    · simp [exceptOk, hk]
    · by_cases h9 : digitCount (stripPhone s) < 9
      · have hl : (digitCount (stripPhone s) < 9 || digitCount (stripPhone s) > 12) = true := by
          simp [h9]
        have hd : decide (9 ≤ digitCount (stripPhone s)) = false := by
          simp; omega
        simp [hl, hd, hk, exceptOk]
      · by_cases h12 : digitCount (stripPhone s) > 12
        · have hl : (digitCount (stripPhone s) < 9 || digitCount (stripPhone s) > 12) = true := by
            simp [h12]
          have hd : decide (digitCount (stripPhone s) ≤ 12) = false := by
            simp; omega
          simp [hl, hd, hk, exceptOk]
        · have hl : (digitCount (stripPhone s) < 9 || digitCount (stripPhone s) > 12) = false := by
            have e9 : decide (digitCount (stripPhone s) < 9) = false := by simp; omega
            have e12 : decide (digitCount (stripPhone s) > 12) = false := by simp; omega
            rw [show (digitCount (stripPhone s) < 9 || digitCount (stripPhone s) > 12) =
                (decide (digitCount (stripPhone s) < 9) ||
                 decide (digitCount (stripPhone s) > 12)) from rfl, e9, e12]
            rfl
          have hd9 : decide (9 ≤ digitCount (stripPhone s)) = true := by
            simp; omega
          have hd12 : decide (digitCount (stripPhone s) ≤ 12) = true := by
            simp; omega
          simp [hl, hd9, hd12, hk, exceptOk]

/-- The fields of the `User` model (`src/accounts/models.py` lines 34-151)
    that the account views read or write.  Framework bookkeeping fields
    (password hash, employee id, last-activity stamp, profile picture,
    uuid, created-by) play no part in the verified operations and are not
    carried.  `groups` holds the names of the Django auth groups of the
    user; `date_joined` is a timestamp. -/
structure User where
  id : Nat
  email : String
  first_name : String
  last_name : String
  national_id : String
  phone_number : String
  role : String
  department : String
  is_active : Bool
  date_joined : Nat
  groups : List String
deriving Repr, DecidableEq

/-- A row of `UserActivityLog` (`src/accounts/models.py` lines 154-166):
    owning user (by id), free-text action, creation timestamp
    (`auto_now_add`), and the JSON payload as key-value pairs.  The
    optional ip address and the user-agent string are request metadata
    that none of the verified properties mention. -/
structure LogEntry where
  user : Nat
  action : String
  timestamp : Nat
  data : List (String × String)
deriving Repr, DecidableEq

/-- The persistent store: the user table and the append-only activity
    log. -/
structure DB where
  users : List User
  log : List LogEntry
deriving Repr, DecidableEq

/-- The authenticated-session facts a view reads from `request.user`:
    whether the session is authenticated, and the id and role of the user
    when it is. -/
structure Session where
  authenticated : Bool
  userId : Nat
  role : String
deriving Repr, DecidableEq

/-- The request data the account views read: the HTTP method and the
    optional `role` and `search` query parameters (`request.GET.get`
    yields `None` when the parameter is absent). -/
structure Request where
  method : String
  role_param : Option String
  search_param : Option String
deriving Repr, DecidableEq

/-- A view outcome: a plain redirect (`redirect(target)`), a redirect
    preceded by `messages.error` (the insufficient-permission notice), a
    rendered template, or an uncaught Python exception escaping the
    view. -/
inductive Response where
  | redirect (target : String)
  | redirectNotice (target : String) (msg : String)
  | render (template : String)
  | fault (err : String)
deriving Repr, DecidableEq

/-- Python truthiness of `request.GET.get(...)`: `None` and the empty
    string are falsy. -/
def pyTruthy : Option String → Bool
  | some s => s != ""
  | none => false

/-- The `role_required` decorator (`src/core/decorators.py` lines 7-27):
    an unauthenticated request is redirected to `redirect_url` (the
    default is the login page); an authenticated user whose role is in
    `allowed_roles` reaches the view; any other authenticated user gets
    the `messages.error` notice and is redirected to the dashboard. -/
def role_required (allowed_roles : List String) (redirect_url : String)
    (view_func : Session → Request → Response) (sess : Session) (req : Request) : Response :=
  if !sess.authenticated then
    .redirect redirect_url
  else if allowed_roles.contains sess.role then
    view_func sess req
  else
    .redirectNotice "core:dashboard" "You do not have permission to access this page."

/-- Insert a user into a list that is ordered by descending
    `date_joined`. -/
def insertByDateDesc (u : User) : List User → List User
  | [] => [u]
  | v :: vs =>
      if v.date_joined ≤ u.date_joined then u :: v :: vs
      else v :: insertByDateDesc u vs

/-- The `User.objects.all().order_by` call (descending date_joined) of
    `src/accounts/views.py` line 129: the user table sorted
    newest-joined first. -/
def orderByDateJoinedDesc (users : List User) : List User :=
  users.foldr insertByDateDesc []

/-- The queryset computed by `user_management_view`
    (`src/accounts/views.py` lines 127-151).  The role filter keeps the
    users with the requested role.  The search branch evaluates
    `models.Q(first_name__icontains=search) | ...`, but `views.py` never
    imports a `models` module (only `from .models import User,
    UserActivityLog`), so reaching that expression raises `NameError` in
    Python; the branch is therefore embedded as an error. -/
def user_management_users (db : List User)
    (role_filter search : Option String) : Except String (List User) :=
  let users := orderByDateJoinedDesc db
  let users :=
    if pyTruthy role_filter then
      users.filter (fun u => u.role == role_filter.getD "")
    else users
  if pyTruthy search then
    .error "NameError: name models is not defined"
  else
    .ok users

/-- The body of `user_management_view` once past the decorators: render
    the listing template, unless computing the queryset raised. -/
def user_management_body (db : List User) (req : Request) : Response :=
  match user_management_users db req.role_param req.search_param with
  | .ok _ => .render "accounts/user_management.html"
  | .error e => .fault e

/-- `user_management_view` with its `role_required` decorator
    (`src/accounts/views.py` lines 125-151); the default
    `redirect_url` default (the login route) applies.  (The outer `login_required`
    decorator also sends unauthenticated sessions to the login page, so
    composing it would not change the outcomes modelled here.) -/
def user_management_view (db : List User) (sess : Session) (req : Request) : Response :=
  role_required ["HR_ADMIN", "CPSB_SECRETARIAT"] "accounts:login"
    (fun _ r => user_management_body db r) sess req

/-- `User.objects.get(id=user_id)`: the first row with the given primary
    key. -/
def findUser (users : List User) (uid : Nat) : Option User :=
  match users with
  | [] => none
  | u :: us => if u.id == uid then some u else findUser us uid

/-- Persist a modified user: replace the row with the same primary
    key. -/
def saveUser (users : List User) (u : User) : List User :=
  users.map (fun v => if v.id == u.id then u else v)

/-- `toggle_user_active` (`src/accounts/views.py` lines 155-180), past
    its decorators; `actorId` is `request.user.id`, `now` the database
    clock for the `auto_now_add` timestamp of the log row.  Returns the
    new store, the list of messages emitted, and the response.  Django
    compares `user == request.user` by primary key.  On a non-POST
    method the whole body is skipped and only the redirect runs. -/
def toggle_user_active (now : Nat) (db : DB) (actorId : Nat)
    (method : String) (user_id : Nat) : DB × List String × Response :=
  if method == "POST" then
    match findUser db.users user_id with
    | none =>
        (db, ["User not found."], .redirect "accounts:user_management")
    | some user =>
        if user.id == actorId then
          (db, ["You cannot deactivate your own account!"],
           .redirect "accounts:user_management")
        else
          let user2 := { user with is_active := !user.is_active }
          let action := if user2.is_active then "activated" else "deactivated"
          let entry : LogEntry :=
            { user := actorId
              action := "USER_" ++ action.toUpper
              timestamp := now
              data := [("target_user", user.email)] }
          ({ users := saveUser db.users user2, log := db.log ++ [entry] },
           ["User " ++ user.first_name ++ " " ++ user.last_name ++ " " ++
              action ++ " successfully!"],
           .redirect "accounts:user_management")
  else
    (db, [], .redirect "accounts:user_management")

/-- The post-login redirect dispatch of `login_view`
    (`src/accounts/views.py` lines 65-76), keyed on `user.role`. -/
def roleRedirect (role : String) : String :=
  if role == "INITIATOR" then "requisitions:create"
  else if role == "CHIEF_OFFICER" then "requisitions:pending_approvals"
  else if role == "COUNTY_SECRETARY" then "requisitions:pending_endorsements"
  else if role == "CPSB_BOARD" then "requisitions:board_approvals"
  else if role == "HR_SECRETARIAT" then "candidates:shortlist"
  else "core:dashboard"

/-- A login outcome: a redirect, or the login template rendered again
    with the listed `messages.error` texts. -/
inductive LoginOutcome where
  | redirect (target : String)
  | renderLogin (errors : List String)
deriving Repr, DecidableEq

/-- `login_view` (`src/accounts/views.py` lines 41-82).  `auth` embeds
    `authenticate(request, username=email, password=password)`; the form
    `CustomAuthenticationForm.clean` delegates to the same `authenticate`
    call, so the form is valid exactly when `auth` returns a user, and in
    that case the view writes one `USER_LOGIN` activity row and redirects
    by role.  An invalid form triggers `messages.error` with the generic
    invalid-credentials text and the template is rendered again. -/
def login_view (now : Nat) (db : DB) (auth : String → String → Option User)
    (alreadyAuthenticated : Bool) (method : String)
    (email password : String) : DB × LoginOutcome :=
  if alreadyAuthenticated then
    (db, .redirect "core:dashboard")
  else if method == "POST" then
    match auth email password with
    | some user =>
        let entry : LogEntry :=
          { user := user.id, action := "USER_LOGIN", timestamp := now, data := [] }
        ({ db with log := db.log ++ [entry] },
         .redirect (roleRedirect user.role))
    | none =>
        (db, .renderLogin ["Invalid email or password."])
  else
    (db, .renderLogin [])

/-- `User.get_role_group` (`src/accounts/models.py` lines 128-141): the
    fixed role-to-group dictionary, with `Applicants` as the `.get`
    default for any role outside it. -/
def get_role_group (role : String) : String :=
  if role == "INITIATOR" then "Initiators"
  else if role == "CHIEF_OFFICER" then "Chief Officers"
  else if role == "COUNTY_SECRETARY" then "County Secretaries"
  else if role == "CPSB_BOARD" then "CPSB Board"
  else if role == "CPSB_SECRETARIAT" then "CPSB Secretariat"
  else if role == "HR_SECRETARIAT" then "HR Secretariat"
  else if role == "HR_ADMIN" then "HR Administrators"
  else if role == "PANELIST" then "Panelists"
  else if role == "PAYROLL_OFFICER" then "Payroll Officers"
  else "Applicants"

/-- The nine roles of `User.ROLE_CHOICES` (`src/accounts/models.py`
    lines 57-67). -/
def roleChoices : List String :=
  ["INITIATOR", "CHIEF_OFFICER", "COUNTY_SECRETARY", "CPSB_BOARD",
   "CPSB_SECRETARIAT", "HR_SECRETARIAT", "HR_ADMIN", "PANELIST",
   "PAYROLL_OFFICER"]

/-- The success path of `register_view` (`src/accounts/views.py` lines
    16-34): `form.save()` persists the new user (a fresh user belongs to
    no group yet), then `user.groups.add` places it into the group named
    `user.get_role_group()`, and one `USER_REGISTERED` activity row with
    payload recording the chosen role is written. -/
def register_user (now : Nat) (db : DB) (formUser : User) : DB :=
  let u := { formUser with groups := [get_role_group formUser.role] }
  { users := db.users ++ [u]
    log := db.log ++ [{ user := u.id
                        action := "USER_REGISTERED"
                        timestamp := now
                        data := [("role", u.role)] }] }

/-- A successful primary-key lookup returns a row carrying that key. -/
theorem findUser_id_eq (users : List User) (uid : Nat) (t : User)
    (hfind : findUser users uid = some t) : t.id = uid := by
  induction users with
  | nil => simp [findUser] at hfind
  | cons v vs ih =>
      unfold findUser at hfind
      by_cases hv : (v.id == uid) = true
      · rw [if_pos hv] at hfind
        injection hfind with hvt
        subst hvt
        exact beq_iff_eq.mp hv
      · rw [if_neg hv] at hfind
        exact ih hfind

/-- Looking a user up after persisting a modified row with the same
    primary key finds the modified row. -/
theorem findUser_saveUser (users : List User) (uid : Nat) (t u2 : User)
    (hfind : findUser users uid = some t) (hid : u2.id = t.id) :
    findUser (saveUser users u2) uid = some u2 := by
  have htid : t.id = uid := findUser_id_eq users uid t hfind
  induction users with
  | nil => simp [findUser] at hfind
  | cons v vs ih =>
      unfold findUser at hfind
      by_cases hv : (v.id == uid) = true
      · rw [if_pos hv] at hfind
        injection hfind with hvt
        have hvu : (v.id == u2.id) = true := by
          rw [hvt, hid]
          exact beq_self_eq_true t.id
        have hu2 : (u2.id == uid) = true := by
          rw [hid, htid]
          exact beq_self_eq_true uid
        simp [saveUser, findUser, hvu, hu2]
      · have hv' : (v.id == uid) = false := Bool.eq_false_iff.mpr hv
        rw [if_neg hv] at hfind
        have hvu : (v.id == u2.id) = false := by
          rw [hid, htid]
          exact hv'
        have hres := ih hfind
        simp only [saveUser, List.map_cons] at hres ⊢
        simp [findUser, hvu, hv']
        simpa using hres

/-- C1: for every non-empty text query, the user-listing search does not
    return the matching users: it raises `NameError`, because
    `src/accounts/views.py` evaluates `models.Q(...)` without ever
    importing a `models` module.  The claimed filtering behaviour is
    unreachable. -/
theorem user_management_search_raises_name_error
    (db : List User) (role_filter : Option String) (s : String) (h : s ≠ "") :
    user_management_users db role_filter (some s) =
      Except.error "NameError: name models is not defined" := by
  unfold user_management_users
  have hs : pyTruthy (some s) = true := by simp [pyTruthy, bne_iff_ne, h]
  simp [hs]

/-- C1 witness: the one-letter query "a" on an empty table already
    faults. -/
theorem user_management_search_raises_name_error_witness :
    user_management_users [] none (some "a") =
      Except.error "NameError: name models is not defined" :=
  user_management_search_raises_name_error [] none "a" (by decide)

/-- C2: on a POST with an existing target, the activation toggle rejects
    a self-toggle with the explicit error message and leaves the whole
    store (every field of every user, and the log) unchanged; for any
    other existing target it flips `is_active` and persists the flipped
    row, which the subsequent lookup then returns. -/
theorem toggle_self_rejected_otherwise_flips
    (now : Nat) (db : DB) (actorId uid : Nat) (t : User)
    (hfind : findUser db.users uid = some t) :
    (t.id = actorId →
        toggle_user_active now db actorId "POST" uid =
          (db, ["You cannot deactivate your own account!"],
           Response.redirect "accounts:user_management")) ∧
    (t.id ≠ actorId →
        (toggle_user_active now db actorId "POST" uid).1.users =
          saveUser db.users { t with is_active := !t.is_active } ∧
        findUser (toggle_user_active now db actorId "POST" uid).1.users uid =
          some { t with is_active := !t.is_active }) := by
  constructor
  · intro hself
    have hb : (t.id == actorId) = true := by simp [hself]
    simp [toggle_user_active, hfind, hb]
  · intro hother
    have hb : (t.id == actorId) = false := by simp [hother]
    constructor
    · simp [toggle_user_active, hfind, hb]
    · have hrw : (toggle_user_active now db actorId "POST" uid).1.users =
          saveUser db.users { t with is_active := !t.is_active } := by
        simp [toggle_user_active, hfind, hb]
      rw [hrw]
      exact findUser_saveUser db.users uid t _ hfind rfl

/-- C2 witness: with two stored users, the actor toggling itself is
    rejected with the store unchanged, per the theorem applied at user
    id 1 acting on itself. -/
theorem toggle_self_rejected_otherwise_flips_witness :
    toggle_user_active 5
        ⟨[⟨1, "a@x.co", "A", "B", "1234567", "0712345678", "HR_ADMIN",
           "Health", true, 0, []⟩,
          ⟨2, "c@x.co", "C", "D", "7654321", "0712345679", "INITIATOR",
           "Health", true, 1, []⟩], []⟩ 1 "POST" 1 =
      (⟨[⟨1, "a@x.co", "A", "B", "1234567", "0712345678", "HR_ADMIN",
          "Health", true, 0, []⟩,
         ⟨2, "c@x.co", "C", "D", "7654321", "0712345679", "INITIATOR",
          "Health", true, 1, []⟩], []⟩,
       ["You cannot deactivate your own account!"],
       Response.redirect "accounts:user_management") :=
  (toggle_self_rejected_otherwise_flips 5 _ 1 1
      ⟨1, "a@x.co", "A", "B", "1234567", "0712345678", "HR_ADMIN",
       "Health", true, 0, []⟩ (by decide)).1 rfl

/-- C10: any request to the toggle endpoint whose method is not POST
    changes no user, appends no log row, emits no message, and is
    answered with the redirect to the user-management listing. -/
theorem toggle_non_post_is_pure_redirect
    (now : Nat) (db : DB) (actorId : Nat) (method : String) (uid : Nat)
    (h : method ≠ "POST") :
    toggle_user_active now db actorId method uid =
      (db, [], Response.redirect "accounts:user_management") := by
  have hb : (method == "POST") = false := by simp [h]
  simp [toggle_user_active, hb]

/-- C10 witness: a GET aimed at an existing user id 1 leaves the store
    untouched and redirects. -/
theorem toggle_non_post_is_pure_redirect_witness :
    toggle_user_active 5
        ⟨[⟨1, "a@x.co", "A", "B", "1234567", "0712345678", "HR_ADMIN",
           "Health", true, 0, []⟩], []⟩ 2 "GET" 1 =
      (⟨[⟨1, "a@x.co", "A", "B", "1234567", "0712345678", "HR_ADMIN",
          "Health", true, 0, []⟩], []⟩, [],
       Response.redirect "accounts:user_management") :=
  toggle_non_post_is_pure_redirect 5 _ 2 "GET" 1 (by decide)

/-- C4: the role guard on the user-management listing denies with exactly
    the two outcomes of `role_required`: an unauthenticated session goes
    to the login page, an authenticated session with a role outside the
    allowed set goes to the dashboard with the insufficient-permission
    notice; the two destinations differ; and an INITIATOR is denied and
    redirected for every method and every combination of the `role` and
    `search` query parameters. -/
theorem role_guard_denials (db : List User) (sess : Session) (req : Request) :
    (sess.authenticated = false →
        user_management_view db sess req = Response.redirect "accounts:login") ∧
    (sess.authenticated = true →
      sess.role ∉ ["HR_ADMIN", "CPSB_SECRETARIAT"] →
        user_management_view db sess req =
          Response.redirectNotice "core:dashboard"
            "You do not have permission to access this page.") ∧
    (∀ msg, Response.redirect "accounts:login" ≠
        Response.redirectNotice "core:dashboard" msg) ∧
    (sess.authenticated = true → sess.role = "INITIATOR" →
        user_management_view db sess req =
          Response.redirectNotice "core:dashboard"
            "You do not have permission to access this page.") := by
  refine ⟨?_, ?_, ?_, ?_⟩
  · intro hna
    simp [user_management_view, role_required, hna]
  · intro ha hrole
    have h1 : sess.role ≠ "HR_ADMIN" := by intro e; exact hrole (by simp [e])
    have h2 : sess.role ≠ "CPSB_SECRETARIAT" := by intro e; exact hrole (by simp [e])
    simp [user_management_view, role_required, ha, h1, h2]
  · intro msg h
    cases h
  · intro ha hrole
    simp [user_management_view, role_required, ha, hrole]

/-- C4 witness: an authenticated INITIATOR issuing a GET with both query
    parameters set is denied with the dashboard redirect and notice. -/
theorem role_guard_denials_witness :
    user_management_view [] ⟨true, 7, "INITIATOR"⟩
        ⟨"GET", some "INITIATOR", some "amani"⟩ =
      Response.redirectNotice "core:dashboard"
        "You do not have permission to access this page." :=
  (role_guard_denials [] ⟨true, 7, "INITIATOR"⟩
      ⟨"GET", some "INITIATOR", some "amani"⟩).2.2.2 rfl rfl

/-- C7: on a POST to the login view from an unauthenticated session, a
    successful authentication redirects to the target that
    `roleRedirect` assigns to the role of the authenticated user — the
    five special roles go to their pages and every other role to the
    dashboard — while a failed authentication renders the login template
    again with the generic error message. -/
theorem login_redirect_determined_by_role
    (now : Nat) (db : DB) (auth : String → String → Option User)
    (email password : String) :
    (∀ u, auth email password = some u →
        (login_view now db auth false "POST" email password).2 =
          LoginOutcome.redirect (roleRedirect u.role)) ∧
    (auth email password = none →
        (login_view now db auth false "POST" email password).2 =
          LoginOutcome.renderLogin ["Invalid email or password."]) ∧
    roleRedirect "INITIATOR" = "requisitions:create" ∧
    roleRedirect "CHIEF_OFFICER" = "requisitions:pending_approvals" ∧
    roleRedirect "COUNTY_SECRETARY" = "requisitions:pending_endorsements" ∧
    roleRedirect "CPSB_BOARD" = "requisitions:board_approvals" ∧
    roleRedirect "HR_SECRETARIAT" = "candidates:shortlist" ∧
    (∀ r, r ∉ ["INITIATOR", "CHIEF_OFFICER", "COUNTY_SECRETARY",
               "CPSB_BOARD", "HR_SECRETARIAT"] →
        roleRedirect r = "core:dashboard") := by
  refine ⟨?_, ?_, rfl, rfl, rfl, rfl, rfl, ?_⟩
  · intro u hu
    simp [login_view, hu]
  · intro hn
    simp [login_view, hn]
  · intro r hr
    simp only [List.mem_cons, List.mem_singleton, not_or] at hr
    obtain ⟨h1, h2, h3, h4, h5, -⟩ := hr
    simp [roleRedirect, h1, h2, h3, h4, h5]

/-- C7 witness: a successful INITIATOR login is redirected to the
    requisition-creation page. -/
theorem login_redirect_determined_by_role_witness :
    (login_view 3 ⟨[], []⟩
        (fun _ _ => some ⟨1, "a@x.co", "A", "B", "1234567", "0712345678",
            "INITIATOR", "Health", true, 0, []⟩)
        false "POST" "a@x.co" "pw").2 =
      LoginOutcome.redirect "requisitions:create" :=
  ((login_redirect_determined_by_role 3 ⟨[], []⟩
      (fun _ _ => some ⟨1, "a@x.co", "A", "B", "1234567", "0712345678",
          "INITIATOR", "Health", true, 0, []⟩) "a@x.co" "pw").1
    ⟨1, "a@x.co", "A", "B", "1234567", "0712345678",
     "INITIATOR", "Health", true, 0, []⟩ rfl).trans rfl

/-- C8: a successful login appends exactly one `USER_LOGIN` row owned by
    the logging-in user — the log grows by that single row, and the count
    of the `USER_LOGIN` rows of that user rises by exactly one — and, when the
    database clock is at least every stored timestamp, the new timestamp
    is not earlier than any earlier row of that user. -/
theorem login_appends_one_login_log
    (now : Nat) (db : DB) (auth : String → String → Option User)
    (email password : String) (u : User)
    (hauth : auth email password = some u)
    (hclock : ∀ e ∈ db.log, e.timestamp ≤ now) :
    (login_view now db auth false "POST" email password).1.log =
      db.log ++ [{ user := u.id, action := "USER_LOGIN",
                   timestamp := now, data := [] }] ∧
    ((login_view now db auth false "POST" email password).1.log.filter
        (fun e => e.user == u.id && e.action == "USER_LOGIN")).length =
      (db.log.filter
        (fun e => e.user == u.id && e.action == "USER_LOGIN")).length + 1 ∧
    (∀ e ∈ db.log, e.user = u.id → e.timestamp ≤ now) := by
  have hlog : (login_view now db auth false "POST" email password).1.log =
      db.log ++ [{ user := u.id, action := "USER_LOGIN",
                   timestamp := now, data := [] }] := by
    simp [login_view, hauth]
  refine ⟨hlog, ?_, fun e he _ => hclock e he⟩
  rw [hlog, List.filter_append]
  simp

/-- C8 witness: with one earlier row at time 0 and the clock at 1, the
    login of user 1 appends its single `USER_LOGIN` row. -/
theorem login_appends_one_login_log_witness :
    (login_view 1 ⟨[], [⟨1, "USER_REGISTERED", 0, []⟩]⟩
        (fun _ _ => some ⟨1, "a@x.co", "A", "B", "1234567", "0712345678",
            "INITIATOR", "Health", true, 0, []⟩)
        false "POST" "a@x.co" "pw").1.log =
      [⟨1, "USER_REGISTERED", 0, []⟩, ⟨1, "USER_LOGIN", 1, []⟩] :=
  (login_appends_one_login_log 1 ⟨[], [⟨1, "USER_REGISTERED", 0, []⟩]⟩
      (fun _ _ => some ⟨1, "a@x.co", "A", "B", "1234567", "0712345678",
          "INITIATOR", "Health", true, 0, []⟩) "a@x.co" "pw"
      ⟨1, "a@x.co", "A", "B", "1234567", "0712345678",
       "INITIATOR", "Health", true, 0, []⟩ rfl
      (by intro e he; simp only [List.mem_singleton] at he; subst he; decide)).1

/-- C9: the role-to-group mapping sends each of the nine enumerated
    roles to its named group, sends every role outside the enumeration
    to "Applicants", and a newly registered user is stored belonging to
    exactly the group the mapping assigns to the chosen role. -/
theorem role_group_mapping_total (now : Nat) (db : DB) (formUser : User) :
    get_role_group "INITIATOR" = "Initiators" ∧
    get_role_group "CHIEF_OFFICER" = "Chief Officers" ∧
    get_role_group "COUNTY_SECRETARY" = "County Secretaries" ∧
    get_role_group "CPSB_BOARD" = "CPSB Board" ∧
    get_role_group "CPSB_SECRETARIAT" = "CPSB Secretariat" ∧
    get_role_group "HR_SECRETARIAT" = "HR Secretariat" ∧
    get_role_group "HR_ADMIN" = "HR Administrators" ∧
    get_role_group "PANELIST" = "Panelists" ∧
    get_role_group "PAYROLL_OFFICER" = "Payroll Officers" ∧
    (∀ r, r ∉ roleChoices → get_role_group r = "Applicants") ∧
    (register_user now db formUser).users =
      db.users ++ [{ formUser with groups := [get_role_group formUser.role] }] := by
  refine ⟨rfl, rfl, rfl, rfl, rfl, rfl, rfl, rfl, rfl, ?_, rfl⟩
  intro r hr
  simp only [roleChoices, List.mem_cons, List.mem_singleton, not_or] at hr
  obtain ⟨h1, h2, h3, h4, h5, h6, h7, h8, h9⟩ := hr
  simp [get_role_group, h1, h2, h3, h4, h5, h6, h7, h8, h9]

/-- C9 witness: the unenumerated role "GUEST" falls back to the
    Applicants group. -/
theorem role_group_mapping_total_witness :
    get_role_group "GUEST" = "Applicants" :=
  (role_group_mapping_total 0 ⟨[], []⟩
      ⟨1, "a@x.co", "A", "B", "1234567", "0712345678", "GUEST",
       "Health", true, 0, []⟩).2.2.2.2.2.2.2.2.2.1 "GUEST" (by decide)

/-- C3 counterexample: the profile form accepts the 13-digit phone
    "0712345678901", although the registration rule the claim invokes
    (at most 12 digits) rejects it — the digit-count check is absent
    from `UserProfileForm.clean_phone_number`. -/
theorem profile_phone_digit_count_not_checked :
    profile_accepts_phone "0712345678901" = true ∧
    specPhoneOk "0712345678901" = false ∧
    digitCount (stripPhone "0712345678901") = 13 := by
  refine ⟨by decide, by decide, by decide⟩

/-- C3 amended: the profile update re-validates only the prefix part of
    the registration phone rule — a phone is accepted iff, after
    stripping spaces and hyphens, it starts with "+254", "254", "07" or
    "01"; the 9-to-12-digit count is not re-checked. -/
theorem profile_phone_prefix_only (s : String) :
    profile_accepts_phone s = kenyanFormatOk (stripPhone s) := by
  by_cases h : s = ""
  · subst h; rfl
  · have hb : (s != "") = true := by simp [bne_iff_ne, h]
    unfold profile_accepts_phone UserProfileForm.clean_phone_number
    rw [hb]
    simp only [if_true]
    cases hk : kenyanFormatOk (stripPhone s)
    · simp [exceptOk, hk]
    · simp [exceptOk, hk]

end CRMS
